import Mathlib

/-!
Verification development for the mcp_OVS repository.

Shallow embedding of the dispatch / resilience / orchestration core:
  - `ToolRegistry.execute_tool`            (app/core/services/tool_registry.py)
  - `APIExecutorAgent` rate limiter and circuit breaker
                                           (agent_system/agents/specialists/api_executor.py)
  - `handle_user_query`                    (agent_system/agents/orchestrator.py)
  - `TaskOrchestrator` task lifecycle      (app/core/services/task_orchestrator.py)
  - `AgentRegistry.find_capable_agents`    (app/core/services/agent_registry.py)
  - `BaseAgent.assign_task`                (agent_system/core/base_agent.py)

Python dicts are modelled as insertion-ordered association lists, JSON-ish
Python values as `JValue` (floats as exact rationals), wall-clock instants as
rationals, and fallible code as `Except`/`Option`.  Sources of nondeterminism
(uuid4, utcnow, elapsed wall time, HTTP outcomes, LLM output parses) are passed
in as explicit parameters.
-/

/-- A JSON-like Python value (dict / list / scalar).  Python floats are
modelled as exact rationals. -/
inductive JValue where
  | null
  | bool (b : Bool)
  | num (q : ℚ)
  | str (s : String)
  | arr (items : List JValue)
  | obj (fields : List (String × JValue))

/-- Lookup in an insertion-ordered association list, mirroring Python
`d.get(k)`. -/
def dictGet {α : Type} (m : List (String × α)) (k : String) : Option α :=
  match m with
  | [] => none
  | (k2, v) :: rest => if k2 = k then some v else dictGet rest k

/-- `d[k] = v` on an insertion-ordered association list: updating an existing
key keeps its position, a fresh key is appended at the end (Python dict
semantics). -/
def dictSet {α : Type} (m : List (String × α)) (k : String) (v : α) : List (String × α) :=
  match m with
  | [] => [(k, v)]
  | (k2, v2) :: rest => if k2 = k then (k2, v) :: rest else (k2, v2) :: dictSet rest k v

/-- A single-quote character, used to build Python exception messages such as
`Tool 'x' execution failed: ...` without a literal quote in the source. -/
def squote : String := (Char.ofNat 39).toString

/-- Wrap a string in single quotes, as the Python f-strings of the repository
do for tool names. -/
def quoted (s : String) : String := squote ++ s ++ squote

/-- Truthiness of an optional string in Python (`if not api_name`):
`None` and the empty string are falsy. -/
def pyFalsyName (s : Option String) : Bool :=
  match s with
  | none => true
  | some v => v.isEmpty

/-- Python `str()` of an optional name: `None` renders as `None`. -/
def pyStrOptName (s : Option String) : String :=
  match s with
  | none => "None"
  | some v => v

/-! ## Capability registry and Dispatcher (tool_registry.py) -/

/-- `ToolStatus` enum of mcp_protocol.py. -/
inductive ToolStatus where
  | active
  | inactive
  | error
  deriving DecidableEq

/-- The value string of a `ToolStatus` member (the `str`-mixin enum value used
when the status is interpolated into an error message). -/
def ToolStatus.valueStr : ToolStatus → String
  | .active => "active"
  | .inactive => "inactive"
  | .error => "error"

/-- `MCPTool` model of mcp_protocol.py (fields read by the registry and the
dispatcher). -/
structure MCPTool where
  name : String
  description : String
  input_schema : JValue
  status : ToolStatus
  category : Option String
  tags : List String

/-- `ToolExecution` record of mcp_protocol.py. -/
structure ToolExecution where
  id : String
  tool_name : String
  agent_id : String
  task_id : Option String
  parameters : List (String × JValue)
  result : Option JValue
  error : Option String
  execution_time : Option ℚ
  created_at : String

/-- A raised Python exception, reduced to its `str()` rendering. -/
structure PyException where
  message : String
  deriving DecidableEq

/-- `str(ToolExecutionException(tool_name, error_message))` from
app/exceptions.py. -/
def toolExecutionExcMessage (tool_name error_message : String) : String :=
  "Tool " ++ quoted tool_name ++ " execution failed: " ++ error_message

/-- The sources of nondeterminism consumed by one `execute_tool` invocation:
the fresh uuid of the execution record, `datetime.utcnow().isoformat()`, the
uuid drawn by the simulated report generator, and the elapsed wall time
measured by `time.time()` differences. -/
structure ExecEnv where
  execId : String
  nowIso : String
  reportId : String
  elapsed : ℚ
  deriving DecidableEq

/-- `ToolRegistry` service state: the tool dict and the bounded execution
history. -/
structure ToolRegistry where
  tools : List (String × MCPTool)
  executions : List ToolExecution

/-- Python `len()` of a JSON value: sized for strings, lists and dicts,
a `TypeError` otherwise. -/
def jLen (v : JValue) : Option Nat :=
  match v with
  | .str s => some s.length
  | .arr items => some items.length
  | .obj fields => some fields.length
  | _ => none

/-- Python `str()` of a parsed JSON value, used only to interpolate values
into simulated payload strings.  Atoms are rendered exactly; containers are
rendered in a JSON-like shape (the claims never inspect these strings). -/
def jPyStr (v : JValue) : String :=
  match v with
  | .null => "None"
  | .bool b => if b then "True" else "False"
  | .num q => toString q
  | .str s => s
  | .arr _ => "[...]"
  | .obj _ => "\x7b...\x7d"

/-- `ToolRegistry._execute_tool_implementation`: the in-process simulated
backing call, dispatched on the tool name.  Every branch returns successfully
except the `api_connector` branch, which raises `TypeError` when the `data`
parameter has no `len()` (faithful to `len(parameters.get("data", []))`). -/
def ToolRegistry.execute_tool_implementation (tool : MCPTool)
    (parameters : List (String × JValue)) (env : ExecEnv) :
    Except PyException JValue :=
  if tool.name = "financial_analyzer" then
    .ok (.obj [("analysis", .obj [("revenue_growth", .num (153/10)),
                                  ("profit_margin", .num (127/10)),
                                  ("cost_reduction", .num (41/5)),
                                  ("roi", .num (47/2))]),
               ("insights", .arr [.str "Revenue growth exceeds industry average",
                                  .str "Cost reduction opportunities identified",
                                  .str "ROI shows positive trend"]),
               ("recommendations", .arr [.str "Focus on high-margin product lines",
                                         .str "Optimize supply chain costs",
                                         .str "Invest in growth markets"])])
  else if tool.name = "api_connector" then
    match jLen ((dictGet parameters ("data")).getD (.arr [])) with
    | none => .error ⟨"object has no len()"⟩
    | some n =>
      .ok (.obj [("status", .str "success"),
                 ("data", .obj [("records_processed", .num n),
                                ("api_response", .obj [("status", .str "ok"),
                                                       ("message", .str "Data processed successfully")])]),
                 ("timestamp", .str env.nowIso)])
  else if tool.name = "data_validator" then
    .ok (.obj [("validation", .obj [("is_valid", .bool true),
                                    ("errors", .arr []),
                                    ("warnings", .arr [.str "Optional field missing"])]),
               ("statistics", .obj [("fields_validated", .num 10),
                                    ("records_checked", .num 1)])])
  else if tool.name = "report_generator" then
    .ok (.obj [("report", .obj [("id", .str env.reportId),
                                ("type", (dictGet parameters ("report_type")).getD (.str "summary")),
                                ("format", .str "pdf"),
                                ("size_kb", .num 245),
                                ("generated_at", .str env.nowIso)])])
  else if tool.name = "database_query" then
    .ok (.obj [("query_result", .obj [("rows_returned", .num 42),
                                      ("execution_time_ms", .num 150),
                                      ("data", .arr [.obj [("id", .num 1), ("name", .str "Sample Data")]])])])
  else if tool.name = "llm_processor" then
    .ok (.obj [("llm_response", .obj [("content", .str ("Processed: " ++
                   jPyStr ((dictGet parameters ("prompt")).getD (.str "No prompt")))),
                                      ("tokens_used", .num 156),
                                      ("model", .str "evolution-llm-v1"),
                                      ("confidence", .num (23/25))])])
  else
    .ok (.obj [("status", .str "success"),
               ("message", "Tool " ++ quoted tool.name ++ " executed successfully" |> .str),
               ("parameters", .obj parameters),
               ("timestamp", .str env.nowIso)])

/-- Append one record to the execution history and keep only the last 1000
entries (`self.executions = self.executions[-1000:]` when the length exceeds
1000). -/
def appendExecution (executions : List ToolExecution) (e : ToolExecution) :
    List ToolExecution :=
  let es := executions ++ [e]
  if es.length > 1000 then es.drop (es.length - 1000) else es

/-- Outcome of one `execute_tool` invocation: the new registry state, the
value returned to the caller (`Except.error` models an exception escaping the
method), and whether `_execute_tool_implementation` was invoked. -/
structure ExecuteToolOutcome where
  state : ToolRegistry
  ret : Except PyException ToolExecution
  implInvoked : Bool

/-- `ToolRegistry.execute_tool`.  A `ToolExecution` is created up front; on
the error paths the error text is captured into the record, the record is
appended to history by the `finally` block, and the (wrapped)
`ToolExecutionException` is re-raised; on success the finalized record is
returned.  The history append happens on every branch. -/
def ToolRegistry.execute_tool (s : ToolRegistry) (env : ExecEnv)
    (tool_name : String) (parameters : List (String × JValue))
    (agent_id : Option String) : ExecuteToolOutcome :=
  let execution : ToolExecution :=
    { id := env.execId, tool_name := tool_name,
      agent_id := agent_id.getD "system", task_id := none,
      parameters := parameters, result := none, error := none,
      execution_time := none, created_at := env.nowIso }
  match dictGet s.tools tool_name with
  | none =>
      let exc : PyException := ⟨toolExecutionExcMessage tool_name "Tool not found"⟩
      let finalExec := { execution with error := some exc.message,
                                        execution_time := some env.elapsed }
      { state := { s with executions := appendExecution s.executions finalExec },
        ret := .error exc, implInvoked := false }
  | some tool =>
      if tool.status ≠ ToolStatus.active then
        let exc : PyException :=
          ⟨toolExecutionExcMessage tool_name ("Tool is " ++ tool.status.valueStr)⟩
        let finalExec := { execution with error := some exc.message,
                                          execution_time := some env.elapsed }
        { state := { s with executions := appendExecution s.executions finalExec },
          ret := .error exc, implInvoked := false }
      else
        match ToolRegistry.execute_tool_implementation tool parameters env with
        | .error exc0 =>
            let finalExec := { execution with error := some exc0.message,
                                              execution_time := some env.elapsed }
            { state := { s with executions := appendExecution s.executions finalExec },
              ret := .error ⟨toolExecutionExcMessage tool_name exc0.message⟩,
              implInvoked := true }
        | .ok result =>
            let finalExec := { execution with result := some result,
                                              execution_time := some env.elapsed }
            { state := { s with executions := appendExecution s.executions finalExec },
              ret := .ok finalExec, implInvoked := true }

/-! ## Resilience envelope (api_executor.py) -/

/-- Circuit-breaker state strings `"closed" / "open" / "half_open"`
(`opened` stands for the string `"open"`). -/
inductive CircuitState where
  | closed
  | opened
  | half_open
  deriving DecidableEq

/-- One per-integration circuit-breaker dict
`{"failures": ..., "last_failure": ..., "state": ...}`. -/
structure CircuitBreakerEntry where
  failures : Nat
  last_failure : Option ℚ
  state : CircuitState
  deriving DecidableEq

/-- One per-integration entry of `self.api_configs`: only the `rate_limit`
key is ever read (`self.api_configs.get(api_name, {}).get("rate_limit", 60)`);
`none` models a config dict without that key. -/
structure ApiConfig where
  rate_limit : Option Nat
  deriving DecidableEq

/-- Mutable state of an `APIExecutorAgent` relevant to the resilience
envelope: `api_configs`, `rate_limits` (per-name timestamp lists) and
`circuit_breakers`. -/
structure APIExecutorAgent where
  api_configs : List (String × ApiConfig)
  rate_limits : List (String × List ℚ)
  circuit_breakers : List (String × CircuitBreakerEntry)
  deriving DecidableEq

/-- An `APIExecutorAgent` with no configs and empty tracking dicts. -/
def APIExecutorAgent.empty : APIExecutorAgent := ⟨[], [], []⟩

/-- Python truthiness of `breaker_state["last_failure"]`: `None` and the
float `0.0` are both falsy. -/
def pyTruthyTime (t : Option ℚ) : Bool :=
  match t with
  | none => false
  | some q => decide (q ≠ 0)

/-- `APIExecutorAgent._check_rate_limit`: count the stored timestamps newer
than `now - 60` and permit the call while the count is below the configured
limit (default 60).  Falsy api names are always permitted.  No mutation. -/
def APIExecutorAgent.check_rate_limit (s : APIExecutorAgent)
    (api_name : Option String) (now : ℚ) : Bool :=
  if pyFalsyName api_name then true
  else
    let api := api_name.getD ""
    let window_start := now - 60
    let recent_calls := ((dictGet s.rate_limits api).getD []).filter
      (fun call_time => decide (window_start < call_time))
    let limit := ((dictGet s.api_configs api).bind ApiConfig.rate_limit).getD 60
    decide (recent_calls.length < limit)

/-- `APIExecutorAgent._update_rate_limit`: append `now` to the per-name
timestamp list, then drop every entry not newer than `now - 60`. -/
def APIExecutorAgent.update_rate_limit (s : APIExecutorAgent)
    (api_name : Option String) (now : ℚ) : APIExecutorAgent :=
  if pyFalsyName api_name then s
  else
    let api := api_name.getD ""
    let window_start := now - 60
    let updated := (((dictGet s.rate_limits api).getD []) ++ [now]).filter
      (fun call_time => decide (window_start < call_time))
    { s with rate_limits := dictSet s.rate_limits api updated }

/-- `APIExecutorAgent._check_circuit_breaker`: deny only when the stored
state is `open`, `last_failure` is truthy, and no more than 30 seconds have
elapsed; when more than 30 seconds have elapsed the stored entry transitions
to `half_open` and the call is permitted.  When the name has no stored entry
the default dict is fresh (state `closed`), so the call is permitted and no
mutation is stored. -/
def APIExecutorAgent.check_circuit_breaker (s : APIExecutorAgent)
    (api_name : Option String) (now : ℚ) : Bool × APIExecutorAgent :=
  if pyFalsyName api_name then (true, s)
  else
    let api := api_name.getD ""
    match dictGet s.circuit_breakers api with
    | none => (true, s)
    | some b =>
      if b.state = CircuitState.opened then
        if pyTruthyTime b.last_failure then
          let time_since_failure := now - (b.last_failure.getD 0)
          if 30 < time_since_failure then
            let b2 := { b with state := CircuitState.half_open }
            (true, { s with circuit_breakers := dictSet s.circuit_breakers api b2 })
          else
            (false, s)
        else (true, s)
      else (true, s)

/-- `APIExecutorAgent._update_circuit_breaker`: on success reset `failures`
to 0 and close the circuit (leaving `last_failure` untouched); on failure
increment `failures`, stamp `last_failure := now`, and open the circuit once
`failures` reaches 5. -/
def APIExecutorAgent.update_circuit_breaker (s : APIExecutorAgent)
    (api_name : Option String) (success : Bool) (now : ℚ) : APIExecutorAgent :=
  if pyFalsyName api_name then s
  else
    let api := api_name.getD ""
    let b := (dictGet s.circuit_breakers api).getD ⟨0, none, CircuitState.closed⟩
    if success then
      { s with circuit_breakers :=
          dictSet s.circuit_breakers api { b with failures := 0, state := CircuitState.closed } }
    else
      let failures := b.failures + 1
      let newState := if 5 ≤ failures then CircuitState.opened else b.state
      { s with circuit_breakers :=
          dictSet s.circuit_breakers api ⟨failures, some now, newState⟩ }

/-- Outcome of the `httpx` request inside `_execute_api_call`: a completed
response with a status code, or a raised exception (timeout, connection
error, ...). -/
inductive HttpOutcome where
  | ok (status_code : Nat)
  | raises (msg : String)
  deriving DecidableEq

/-- The slice of `_execute_api_call`'s per-call result dict the claims
observe. -/
structure ApiCallResult where
  success : Bool
  error : Option String
  status_code : Option Nat
  deriving DecidableEq

/-- `APIExecutorAgent._execute_api_call` for one api call, with the event-loop
clock reads of the call collapsed to a single instant `now` and the HTTP
request outcome supplied as `http`.  Returns the new agent state, the per-call
result dict, and whether the backing HTTP request was issued.  Every raise
inside the `try` block lands in the generic `except` handler, which records a
circuit-breaker failure for the api name before building the error result. -/
def APIExecutorAgent.execute_api_call (s : APIExecutorAgent)
    (api_name : Option String) (url : Option String) (http : HttpOutcome)
    (now : ℚ) : APIExecutorAgent × ApiCallResult × Bool :=
  if pyFalsyName url then
    (s.update_circuit_breaker api_name false now,
     ⟨false, some ("URL is required for API call"), none⟩, false)
  else if s.check_rate_limit api_name now = false then
    (s.update_circuit_breaker api_name false now,
     ⟨false, some ("Rate limit exceeded for API: " ++ pyStrOptName api_name), none⟩, false)
  else
    let checked := s.check_circuit_breaker api_name now
    if checked.1 = false then
      (checked.2.update_circuit_breaker api_name false now,
       ⟨false, some ("Circuit breaker open for API: " ++ pyStrOptName api_name), none⟩, false)
    else
      match http with
      | .raises msg =>
          (checked.2.update_circuit_breaker api_name false now,
           ⟨false, some msg, none⟩, true)
      | .ok status_code =>
          let s2 := checked.2.update_rate_limit api_name now
          let s3 := s2.update_circuit_breaker api_name (decide (status_code < 400)) now
          (s3, ⟨decide (200 ≤ status_code ∧ status_code < 300), none, some status_code⟩, true)

/-! ## Planning orchestrator (agent_system/agents/orchestrator.py) -/

/-- One plan step (`ToolCall` in plan_models.py). -/
structure ToolCall where
  id : String
  tool_name : String
  description : Option String
  arguments : List (String × JValue)

/-- A parsed LLM plan (`Plan` in plan_models.py). -/
structure Plan where
  overall_goal : String
  tool_calls : List ToolCall

/-- Result of one executed plan step (`ToolCallResult` in plan_models.py). -/
structure ToolCallResult where
  call_id : String
  tool_name : String
  arguments : List (String × JValue)
  success : Bool
  result : Option JValue
  error : Option String

/-- Terminal artifact of one orchestration run (`A2AResponse`). -/
structure A2AResponse where
  query : String
  overall_goal : String
  tool_results : List ToolCallResult
  summary : String
  recommendations : List String
  risks : List String

/-- What one `tools/call` POST to the MCP server can yield, as seen by
`handle_user_query`:
  * `httpExc`: the request raised (connection error, timeout, bad status via
    `raise_for_status`, or malformed JSON body);
  * `rpcError`: the body carries a top-level JSON-RPC `error` object;
  * `callResult`: the body carries a `result` payload as built by
    `handle_tools_call` in app/main.py: `isError` is `execError.isSome`,
    `content` is `[{"type": "json", "json": resJson}]` when `resJson` is
    present (else empty), and the result-level `error` field equals
    `execError`. -/
inductive McpCallOutcome where
  | httpExc (msg : String)
  | rpcError (code : Int) (msg : String)
  | callResult (execError : Option String) (resJson : Option JValue)

/-- Processing of one step outcome into a `ToolCallResult`, mirroring the
loop body of `handle_user_query` (the three `tool_results.append` sites). -/
def processStep (step : ToolCall) (o : McpCallOutcome) : ToolCallResult :=
  match o with
  | .httpExc msg =>
      { call_id := step.id, tool_name := step.tool_name,
        arguments := step.arguments, success := false, result := none,
        error := some ("HTTP error calling MCP: " ++ msg) }
  | .rpcError code msg =>
      { call_id := step.id, tool_name := step.tool_name,
        arguments := step.arguments, success := false, result := none,
        error := some ("JSON-RPC error " ++ toString code ++ ": " ++ msg) }
  | .callResult execError resJson =>
      let is_error := execError.isSome
      { call_id := step.id, tool_name := step.tool_name,
        arguments := step.arguments, success := !is_error,
        result := resJson,
        error := if is_error then execError else none }

/-- Does an outcome represent a step failure (transport error, JSON-RPC
error, or `isError` result)? -/
def McpCallOutcome.isFailure (o : McpCallOutcome) : Bool :=
  match o with
  | .httpExc _ => true
  | .rpcError _ _ => true
  | .callResult execError _ => execError.isSome

/-- Sequential execution of the plan steps: step `i` is posted and its
outcome (drawn from the environment `env` at position `i`) is appended;
failures never abort the loop. -/
def stepResults (env : Nat → McpCallOutcome) : Nat → List ToolCall → List ToolCallResult
  | _, [] => []
  | i, step :: rest => processStep step (env i) :: stepResults env (i + 1) rest

/-- The parsed summary-round dict, as read by
`summary_data.get("summary", "")`, `summary_data.get("recommendations") or []`
and `summary_data.get("risks") or []`.  (A parsed list value that is empty
behaves like an absent key under `or []`, so `Option.getD` is faithful.) -/
structure SummaryData where
  summary : Option String
  recommendations : Option (List String)
  risks : Option (List String)

/-- The fixed fallback summary text substituted when the summary-round LLM
output fails to parse as JSON. -/
def fallbackSummaryText : String :=
  "Не удалось автоматически сформировать summary, см. сырые результаты."

/-- The fallback `summary_data` dict of `handle_user_query`. -/
def fallbackSummaryData : SummaryData :=
  { summary := some fallbackSummaryText, recommendations := some [],
    risks := some [] }

/-- `handle_user_query` from the point where the plan-round LLM output is
parsed (the earlier `tools/list` fetch and prompt construction only feed the
LLM call).  `planParse = none` models `json.loads`/`Plan(**...)` raising —
the exception propagates (`raise`).  `env i` is the outcome of the `tools/call`
POST for step `i` (0-based), and `summaryParse = none` models a summary-round
parse failure, replaced by the fallback dict. -/
def handle_user_query (query : String) (planParse : Option Plan)
    (env : Nat → McpCallOutcome) (summaryParse : Option SummaryData) :
    Except String A2AResponse :=
  match planParse with
  | none => .error ("Failed to parse plan JSON from Evolution")
  | some plan =>
      let tool_results := stepResults env 0 plan.tool_calls
      let summary_data := match summaryParse with
        | none => fallbackSummaryData
        | some d => d
      .ok { query := query, overall_goal := plan.overall_goal,
            tool_results := tool_results,
            summary := summary_data.summary.getD "",
            recommendations := summary_data.recommendations.getD [],
            risks := summary_data.risks.getD [] }

/-! ## Agents and task orchestration (base_agent.py, agent_registry.py,
task_orchestrator.py) -/

/-- `AgentStatus` enum of mcp_protocol.py. -/
inductive AgentStatus where
  | idle
  | active
  | processing
  | error
  deriving DecidableEq

/-- The value string of an `AgentStatus` member. -/
def AgentStatus.valueStr : AgentStatus → String
  | .idle => "idle"
  | .active => "active"
  | .processing => "processing"
  | .error => "error"

/-- `BusinessTask` model of mcp_protocol.py.  `status` is a raw string in the
source (`"pending"`, `"processing"`, `"completed"`, `"failed"` — but nothing
constrains it), so it is a `String` here too. -/
structure BusinessTask where
  id : String
  title : String
  description : String
  domain : String
  priority : String
  status : String
  agent_id : Option String
  input_data : JValue
  output_data : Option JValue
  created_at : ℚ
  started_at : Option ℚ
  completed_at : Option ℚ
  error_message : Option String

/-- Mutable per-agent state of `BaseAgent` (base_agent.py) relevant to the
assignment contract, plus the identity/capability fields the registry reads. -/
structure BaseAgent where
  id : String
  name : String
  type : String
  capabilities : List String
  status : AgentStatus
  current_task : Option BusinessTask
  tasks_completed : Nat
  last_activity : ℚ

/-- `BaseAgent.assign_task`: raise when the agent is not idle (leaving all
fields untouched — the raise precedes every mutation in the source);
otherwise set `current_task`, move to `processing` and refresh
`last_activity`.  The second component is the message of the raised
exception, `none` when no exception is raised. -/
def BaseAgent.assign_task (a : BaseAgent) (task : BusinessTask) (now : ℚ) :
    BaseAgent × Option String :=
  if a.status ≠ AgentStatus.idle then
    (a, some ("Agent " ++ a.id ++ " is not idle (status: " ++
              a.status.valueStr ++ ")"))
  else
    ({ a with current_task := some task, status := AgentStatus.processing,
              last_activity := now }, none)

/-- `AgentRegistry` (agent_registry.py): the agents dict in insertion order,
keyed by agent id. -/
structure AgentRegistry where
  agents : List BaseAgent

/-- `AgentRegistry.find_capable_agents`: the ids of the idle agents holding
every required capability, in registry iteration order. -/
def AgentRegistry.find_capable_agents (r : AgentRegistry)
    (capabilities : List String) : List String :=
  (r.agents.filter (fun a =>
      a.status = AgentStatus.idle ∧
      ∀ cap ∈ capabilities, cap ∈ a.capabilities)).map BaseAgent.id

/-- `TaskRequest` model of mcp_protocol.py (fields read by `create_task`). -/
structure TaskRequest where
  title : String
  description : String
  domain : String
  priority : String
  input_data : JValue

/-- `TaskResponse` model of mcp_protocol.py. -/
structure TaskResponse where
  task_id : String
  status : String
  agent_id : Option String
  estimated_completion_time : Option ℚ

/-- `TaskOrchestrator` service state: the task dict and the owned agent
registry. -/
structure TaskOrchestrator where
  tasks : List (String × BusinessTask)
  agent_registry : AgentRegistry

/-- `TaskOrchestrator._get_required_capabilities`: domain-specific
capabilities followed by the constant general capabilities. -/
def TaskOrchestrator.get_required_capabilities (domain : String) : List String :=
  (if domain = "finance" then ["financial_analysis", "data_processing"]
   else if domain = "healthcare" then ["data_validation", "compliance_check"]
   else if domain = "retail" then ["sales_analysis", "inventory_management"]
   else if domain = "manufacturing" then ["production_analysis", "quality_control"]
   else if domain = "technology" then ["system_monitoring", "performance_analysis"]
   else []) ++ ["report_generation", "data_visualization"]

/-- `TaskOrchestrator.create_task` (body under `self._lock`): store a fresh
`pending` task, pick the first capable idle agent id (if any), and on a hit —
`get_agent` re-lookup included; `_assign_task_to_agent` only logs — move the
task to `processing`, stamp `started_at`, bind the agent and answer
`processing`; otherwise answer `pending` with no agent.  `newId` is the uuid
drawn for the task and `now` the current wall-clock time;
`estimated_completion_time` is `now + 30` minutes. -/
def TaskOrchestrator.create_task (st : TaskOrchestrator) (request : TaskRequest)
    (newId : String) (now : ℚ) : TaskOrchestrator × TaskResponse :=
  let task : BusinessTask :=
    { id := newId, title := request.title, description := request.description,
      domain := request.domain, priority := request.priority,
      status := "pending", agent_id := none, input_data := request.input_data,
      output_data := none, created_at := now, started_at := none,
      completed_at := none, error_message := none }
  let st1 := { st with tasks := dictSet st.tasks newId task }
  let required := TaskOrchestrator.get_required_capabilities task.domain
  let capable_agents := st1.agent_registry.find_capable_agents required
  match capable_agents with
  | [] =>
      (st1, { task_id := newId, status := "pending", agent_id := none,
              estimated_completion_time := none })
  | agent_id :: _ =>
      match st1.agent_registry.agents.find? (fun a => a.id = agent_id) with
      | none =>
          (st1, { task_id := newId, status := "pending", agent_id := none,
                  estimated_completion_time := none })
      | some _ =>
          let task2 := { task with agent_id := some agent_id,
                                   status := "processing",
                                   started_at := some now }
          ({ st1 with tasks := dictSet st1.tasks newId task2 },
           { task_id := newId, status := "processing",
             agent_id := some agent_id,
             estimated_completion_time := some (now + 30 * 60) })

/-- Python truthiness of the optional `result` dict in
`update_task_status` (`if result:`): an empty dict is falsy. -/
def pyTruthyResult (r : Option JValue) : Bool :=
  match r with
  | none => false
  | some (.obj fields) => !fields.isEmpty
  | some (.arr items) => !items.isEmpty
  | some (.str s) => !s.isEmpty
  | some (.num q) => decide (q ≠ 0)
  | some (.bool b) => b
  | some .null => false

/-- `TaskOrchestrator.update_task_status`: missing task ids are ignored; an
existing task gets `status` overwritten unconditionally, with `completed_at`
(and `output_data` / `error_message`) stamped on the `"completed"` /
`"failed"` branches. -/
def TaskOrchestrator.update_task_status (st : TaskOrchestrator)
    (task_id status : String) (result : Option JValue) (error : Option String)
    (now : ℚ) : TaskOrchestrator :=
  match dictGet st.tasks task_id with
  | none => st
  | some task =>
      let task1 := { task with status := status }
      let task2 :=
        if status = "completed" then
          { task1 with completed_at := some now,
                       output_data := if pyTruthyResult result then result
                                      else task1.output_data }
        else if status = "failed" then
          { task1 with completed_at := some now, error_message := error }
        else task1
      { st with tasks := dictSet st.tasks task_id task2 }

/-! ## Lock discipline of `create_business_analysis`
(task_orchestrator.py)

`TaskOrchestrator._lock` is a non-reentrant `asyncio.Lock`.  The composite
operation runs in a single coroutine, so its behaviour is fully described by
the sequence of acquire/release operations it performs on that one lock:
acquiring while already held suspends forever (no other coroutine inside the
awaited call chain can release it). -/

/-- One operation on `TaskOrchestrator._lock`. -/
inductive LockOp where
  | acquire
  | release
  deriving DecidableEq

/-- The `self._lock` trace of one `create_task` call: its whole body runs
under `async with self._lock`. -/
def create_task_lockTrace : List LockOp := [LockOp.acquire, LockOp.release]

/-- The `self._lock` trace of `_create_analysis_subtasks`: three awaited
`create_task` calls, one per sub-task. -/
def create_analysis_subtasks_lockTrace : List LockOp :=
  create_task_lockTrace ++ create_task_lockTrace ++ create_task_lockTrace

/-- The `self._lock` trace of `create_business_analysis`: its body runs under
`async with self._lock` and awaits `_create_analysis_subtasks` while still
holding the lock. -/
def create_business_analysis_lockTrace : List LockOp :=
  [LockOp.acquire] ++ create_analysis_subtasks_lockTrace ++ [LockOp.release]

/-- Run a lock trace of a single coroutine against a non-reentrant lock.
`held` is whether this coroutine already holds the lock; `none` means the
coroutine never finishes the trace: acquiring a lock it already holds
suspends forever (releasing an unheld lock would be a runtime error and is
also `none`; it never occurs in the traces above).  `some h` returns the
final held-state. -/
def runLockTrace : List LockOp → Bool → Option Bool
  | [], held => some held
  | LockOp.acquire :: rest, held => if held then none else runLockTrace rest true
  | LockOp.release :: rest, held => if held then runLockTrace rest false else none

/-! ## Concrete sample data used by counterexamples and witnesses -/

/-- A fixed nondeterminism environment for concrete dispatcher runs. -/
def sampleEnv : ExecEnv := ⟨"exec-1", "2026-01-01T00:00:00", "rep-1", 1⟩

/-- A fixed execution record used to exercise the history bound. -/
def sampleExecution : ToolExecution :=
  ⟨"e1", "t", "system", none, [], none, none, none, "2026-01-01T00:00:00"⟩

/-- Record `n` consecutive circuit-breaker failures for one integration, one
`_update_circuit_breaker(api_name, False)` per timestamp. -/
def consecutiveFailures (s : APIExecutorAgent) (api : Option String)
    (ts : List ℚ) : APIExecutorAgent :=
  ts.foldl (fun st t => st.update_circuit_breaker api false t) s

/-- A concrete business task used by counterexamples and witnesses. -/
def sampleTask : BusinessTask :=
  ⟨"task-1", "T", "D", "finance", "medium", "pending", none, JValue.obj [],
   none, 0, none, none, none⟩

/-- A concrete task already in the terminal `completed` state. -/
def completedTask : BusinessTask :=
  { sampleTask with id := "task-c", status := "completed", completed_at := some 50 }

/-- An idle agent holding exactly the capabilities the finance domain
requires. -/
def financeAgent : BaseAgent :=
  ⟨"agent-1", "Fin", "data_analyst",
   ["financial_analysis", "data_processing", "report_generation", "data_visualization"],
   AgentStatus.idle, none, 0, 0⟩

/-- A processing (non-idle) agent. -/
def busyAgent : BaseAgent :=
  { financeAgent with id := "agent-2", status := AgentStatus.processing }

/-- A concrete finance-domain task request. -/
def financeRequest : TaskRequest :=
  ⟨"Analyze", "Quarterly analysis", "finance", "high", JValue.obj []⟩

/-- The two-step plan of the end-to-end example: tool `A` then tool `B`. -/
def planAB : Plan :=
  ⟨"collect and analyze", [⟨"step1", "A", none, []⟩, ⟨"step2", "B", none, []⟩]⟩

/-- Step outcomes of the end-to-end example: step 0 succeeds, step 1 times
out at the transport level. -/
def envAB : Nat → McpCallOutcome := fun i =>
  if i = 0 then McpCallOutcome.callResult none (some (JValue.str "ok"))
  else McpCallOutcome.httpExc ("timed out")

/-! ## Theorems -/

/-- `appendExecution` always equals dropping down to the last 1000 entries of
the appended list (`Nat` subtraction truncates at 0 below the cap). -/
lemma appendExecution_eq_drop (h : List ToolExecution) (e : ToolExecution) :
    appendExecution h e = (h ++ [e]).drop ((h ++ [e]).length - 1000) := by
  show (if (h ++ [e]).length > 1000 then
          (h ++ [e]).drop ((h ++ [e]).length - 1000) else (h ++ [e])) = _
  split
  · rfl
  · next hc =>
      have h0 : (h ++ [e]).length - 1000 = 0 := by omega
      rw [h0, List.drop_zero]

/-- Replaying any append sequence through the history bound retains exactly
the suffix of the last 1000 entries. -/
lemma foldl_appendExecution_eq_drop (es : List ToolExecution) :
    es.foldl appendExecution [] = es.drop (es.length - 1000) := by
  induction es using List.reverseRecOn with
  | nil => rfl
  | append_singleton l e ih =>
      rw [List.foldl_append, List.foldl_cons, List.foldl_nil, ih,
          appendExecution_eq_drop]
      rcases le_or_lt l.length 1000 with hle | hgt
      · have h0 : l.length - 1000 = 0 := by omega
        rw [h0, List.drop_zero]
      · have h1 : (l.drop (l.length - 1000) ++ [e]).length - 1000 = 1 := by
          simp only [List.length_append, List.length_drop, List.length_singleton]
          omega
        have h2 : (l ++ [e]).length - 1000 = (l.length - 1000) + 1 := by
          simp only [List.length_append, List.length_singleton]
          omega
        rw [h1, h2]
        have h3 : (1 : ℕ) ≤ (l.drop (l.length - 1000)).length := by
          simp only [List.length_drop]
          omega
        rw [List.drop_append_of_le_length h3, List.drop_drop,
            List.drop_append_of_le_length (by omega : l.length - 1000 + 1 ≤ l.length)]

/-- Claim C1, as stated, is false at a concrete input: for a tool name absent
from the registry, `execute_tool` does not return a completed execution
record — it raises a `ToolExecutionException` past the Dispatcher boundary
(modelled as `Except.error`), so the caller receives no `ToolExecution`. -/
theorem C1_counterexample :
    (ToolRegistry.execute_tool ⟨[], []⟩ sampleEnv ("missing_tool") [] none).ret =
      Except.error ⟨toolExecutionExcMessage ("missing_tool") ("Tool not found")⟩ ∧
    ¬ ∃ exec : ToolExecution,
        (ToolRegistry.execute_tool ⟨[], []⟩ sampleEnv ("missing_tool") [] none).ret =
          Except.ok exec := by
  refine ⟨rfl, ?_⟩
  rintro ⟨exec, hx⟩
  rw [show (ToolRegistry.execute_tool ⟨[], []⟩ sampleEnv ("missing_tool") [] none).ret =
        Except.error ⟨toolExecutionExcMessage ("missing_tool") ("Tool not found")⟩ from rfl] at hx
  exact Except.noConfusion hx

/-- Claim C1, amended: for a tool name not present in the registry,
`execute_tool` never invokes the backing implementation and captures a
NotFound-style error into the execution record, which is appended to the
history — but instead of returning that record it re-raises the
`ToolExecutionException` to the caller; the record is only observable in the
history. -/
theorem C1_amended (s : ToolRegistry) (env : ExecEnv) (tool_name : String)
    (parameters : List (String × JValue)) (agent_id : Option String)
    (h : dictGet s.tools tool_name = none) :
    (ToolRegistry.execute_tool s env tool_name parameters agent_id).implInvoked = false ∧
    (ToolRegistry.execute_tool s env tool_name parameters agent_id).ret =
      Except.error ⟨toolExecutionExcMessage tool_name ("Tool not found")⟩ ∧
    ∃ exec : ToolExecution,
      exec.tool_name = tool_name ∧
      exec.error = some (toolExecutionExcMessage tool_name ("Tool not found")) ∧
      exec.result = none ∧
      (ToolRegistry.execute_tool s env tool_name parameters agent_id).state.executions =
        appendExecution s.executions exec := by
  unfold ToolRegistry.execute_tool
  rw [h]
  exact ⟨rfl, rfl, ⟨_, rfl, rfl, rfl, rfl⟩⟩

/-- Witness for `C1_amended` at a concrete input. -/
theorem C1_amended_witness :
    dictGet (⟨[], []⟩ : ToolRegistry).tools ("missing_tool") = none ∧
    ((ToolRegistry.execute_tool ⟨[], []⟩ sampleEnv ("missing_tool") [] none).implInvoked = false ∧
     (ToolRegistry.execute_tool ⟨[], []⟩ sampleEnv ("missing_tool") [] none).ret =
       Except.error ⟨toolExecutionExcMessage ("missing_tool") ("Tool not found")⟩ ∧
     ∃ exec : ToolExecution,
       exec.tool_name = "missing_tool" ∧
       exec.error = some (toolExecutionExcMessage ("missing_tool") ("Tool not found")) ∧
       exec.result = none ∧
       (ToolRegistry.execute_tool ⟨[], []⟩ sampleEnv ("missing_tool") [] none).state.executions =
         appendExecution (⟨[], []⟩ : ToolRegistry).executions exec) :=
  ⟨rfl, C1_amended ⟨[], []⟩ sampleEnv ("missing_tool") [] none rfl⟩

/-- Claim C5: exactly one `ToolExecution` is appended to the history per
`execute_tool` invocation, on every branch (the append happens in the
`finally` block), and the history bound is FIFO at cap 1000: after `n > 1000`
appends exactly 1000 entries remain and the oldest survivor is the
`(n - 1000 + 1)`-th inserted entry (0-based index `n - 1000`). -/
theorem C5_history_bound :
    (∀ (s : ToolRegistry) (env : ExecEnv) (tool_name : String)
        (parameters : List (String × JValue)) (agent_id : Option String),
       ∃ exec : ToolExecution,
         (ToolRegistry.execute_tool s env tool_name parameters agent_id).state.executions =
           appendExecution s.executions exec) ∧
    (∀ es : List ToolExecution, 1000 < es.length →
       (es.foldl appendExecution []).length = 1000 ∧
       (es.foldl appendExecution []).head? = es.get? (es.length - 1000)) := by
  constructor
  · intro s env tool_name parameters agent_id
    unfold ToolRegistry.execute_tool
    dsimp only
    repeat' split
    all_goals exact ⟨_, rfl⟩
  · intro es hlen
    rw [foldl_appendExecution_eq_drop]
    constructor
    · rw [List.length_drop]
      omega
    · rw [← List.get?_zero, List.get?_drop, Nat.add_zero]

/-- Witness for `C5_history_bound` at a concrete over-cap append sequence. -/
theorem C5_history_bound_witness :
    1000 < (List.replicate 1001 sampleExecution).length ∧
    ((List.replicate 1001 sampleExecution).foldl appendExecution []).length = 1000 := by
  have h : 1000 < (List.replicate 1001 sampleExecution).length := by
    rw [List.length_replicate]
    omega
  exact ⟨h, (C5_history_bound.2 _ h).1⟩

/-- Looking up the key just set in a Python-dict model yields the new value. -/
lemma dictGet_dictSet_self {α : Type} (m : List (String × α)) (k : String) (v : α) :
    dictGet (dictSet m k v) k = some v := by
  induction m with
  | nil => simp [dictGet, dictSet]
  | cons p rest ih =>
      obtain ⟨k2, v2⟩ := p
      by_cases hk : k2 = k
      · simp [dictGet, dictSet, hk]
      · simp [dictGet, dictSet, hk, ih]

/-- `_update_circuit_breaker` never touches the rate-limit dict. -/
lemma update_circuit_breaker_rate_limits (s : APIExecutorAgent)
    (api : Option String) (b : Bool) (t : ℚ) :
    (s.update_circuit_breaker api b t).rate_limits = s.rate_limits := by
  unfold APIExecutorAgent.update_circuit_breaker
  repeat' split
  all_goals rfl

/-- `_check_circuit_breaker` never touches the rate-limit dict. -/
lemma check_circuit_breaker_rate_limits (s : APIExecutorAgent)
    (api : Option String) (t : ℚ) :
    (s.check_circuit_breaker api t).2.rate_limits = s.rate_limits := by
  unfold APIExecutorAgent.check_circuit_breaker
  dsimp only
  repeat' split
  all_goals rfl

/-- Claim C2, as stated, is false at a concrete input: with `rate_limit` 0
configured for integration `x` and no breaker entry, the rate limiter denies
the call, the backing call is not invoked — but the generic `except` handler
of `_execute_api_call` records a circuit-breaker failure, so `failures`
becomes 1 and `last_failure` is stamped, contradicting "left unchanged". -/
theorem C2_counterexample :
    APIExecutorAgent.check_rate_limit ⟨[("x", ⟨some 0⟩)], [], []⟩ (some ("x")) 7 = false ∧
    dictGet (⟨[("x", ⟨some 0⟩)], [], []⟩ : APIExecutorAgent).circuit_breakers ("x") = none ∧
    ((⟨[("x", ⟨some 0⟩)], [], []⟩ : APIExecutorAgent).execute_api_call
        (some ("x")) (some ("http://backing")) (.ok 200) 7).2.2 = false ∧
    dictGet ((⟨[("x", ⟨some 0⟩)], [], []⟩ : APIExecutorAgent).execute_api_call
        (some ("x")) (some ("http://backing")) (.ok 200) 7).1.circuit_breakers ("x") =
      some ⟨1, some 7, CircuitState.closed⟩ := by
  decide

/-- Claim C2, amended: a rate-limit denial short-circuits without invoking
the backing call, but it does count against the circuit breaker — the
resulting state is exactly `update_circuit_breaker api false now`, whose
entry for the integration has `failures` incremented by one and
`last_failure` stamped to `now`. -/
theorem C2_amended :
    (∀ (s : APIExecutorAgent) (api url : Option String) (http : HttpOutcome) (now : ℚ),
       s.check_rate_limit api now = false →
       (s.execute_api_call api url http now).2.2 = false ∧
       (s.execute_api_call api url http now).1 = s.update_circuit_breaker api false now) ∧
    (∀ (s : APIExecutorAgent) (api : Option String) (now : ℚ),
       pyFalsyName api = false →
       dictGet (s.update_circuit_breaker api false now).circuit_breakers (api.getD "") =
         some ⟨((dictGet s.circuit_breakers (api.getD "")).getD ⟨0, none, CircuitState.closed⟩).failures + 1,
               some now,
               if 5 ≤ ((dictGet s.circuit_breakers (api.getD "")).getD ⟨0, none, CircuitState.closed⟩).failures + 1
               then CircuitState.opened
               else ((dictGet s.circuit_breakers (api.getD "")).getD ⟨0, none, CircuitState.closed⟩).state⟩) := by
  constructor
  · intro s api url http now hc
    unfold APIExecutorAgent.execute_api_call
    by_cases hurl : pyFalsyName url = true
    · rw [if_pos hurl]
      exact ⟨rfl, rfl⟩
    · rw [if_neg hurl, if_pos hc]
      exact ⟨rfl, rfl⟩
  · intro s api now hf
    unfold APIExecutorAgent.update_circuit_breaker
    rw [if_neg (by simp [hf])]
    dsimp only
    rw [if_neg (by decide : ¬((false : Bool) = true))]
    rw [dictGet_dictSet_self]

/-- Witness for `C2_amended` at the concrete zero-limit configuration. -/
theorem C2_amended_witness :
    APIExecutorAgent.check_rate_limit ⟨[("x", ⟨some 0⟩)], [], []⟩ (some ("x")) 7 = false ∧
    pyFalsyName (some ("x")) = false ∧
    ((⟨[("x", ⟨some 0⟩)], [], []⟩ : APIExecutorAgent).execute_api_call
        (some ("x")) (some ("u")) (.ok 200) 7).2.2 = false ∧
    ((⟨[("x", ⟨some 0⟩)], [], []⟩ : APIExecutorAgent).execute_api_call
        (some ("x")) (some ("u")) (.ok 200) 7).1 =
      APIExecutorAgent.update_circuit_breaker ⟨[("x", ⟨some 0⟩)], [], []⟩ (some ("x")) false 7 ∧
    dictGet (APIExecutorAgent.update_circuit_breaker ⟨[("x", ⟨some 0⟩)], [], []⟩
        (some ("x")) false 7).circuit_breakers ((some ("x")).getD "") =
      some ⟨((dictGet (⟨[("x", ⟨some 0⟩)], [], []⟩ : APIExecutorAgent).circuit_breakers
               ((some ("x")).getD "")).getD ⟨0, none, CircuitState.closed⟩).failures + 1,
            some 7,
            if 5 ≤ ((dictGet (⟨[("x", ⟨some 0⟩)], [], []⟩ : APIExecutorAgent).circuit_breakers
                      ((some ("x")).getD "")).getD ⟨0, none, CircuitState.closed⟩).failures + 1
            then CircuitState.opened
            else ((dictGet (⟨[("x", ⟨some 0⟩)], [], []⟩ : APIExecutorAgent).circuit_breakers
                    ((some ("x")).getD "")).getD ⟨0, none, CircuitState.closed⟩).state⟩ := by
  have hc : APIExecutorAgent.check_rate_limit ⟨[("x", ⟨some 0⟩)], [], []⟩ (some ("x")) 7 = false := by
    decide
  have hf : pyFalsyName (some ("x")) = false := by decide
  have h1 := C2_amended.1 ⟨[("x", ⟨some 0⟩)], [], []⟩ (some ("x")) (some ("u")) (.ok 200) 7 hc
  have h2 := C2_amended.2 ⟨[("x", ⟨some 0⟩)], [], []⟩ (some ("x")) 7 hf
  exact ⟨hc, hf, h1.1, h1.2, h2⟩

/-- One recorded failure against a breaker dict holding a single entry for
the integration: `failures` increments, `last_failure` is stamped, and the
state opens exactly at the threshold 5. -/
lemma update_cb_failure_singleton (cfgs : List (String × ApiConfig))
    (rls : List (String × List ℚ)) (x : String)
    (hx : pyFalsyName (some x) = false) (e : CircuitBreakerEntry) (t : ℚ) :
    APIExecutorAgent.update_circuit_breaker ⟨cfgs, rls, [(x, e)]⟩ (some x) false t =
      ⟨cfgs, rls,
       [(x, ⟨e.failures + 1, some t,
             if 5 ≤ e.failures + 1 then CircuitState.opened else e.state⟩)]⟩ := by
  unfold APIExecutorAgent.update_circuit_breaker
  rw [if_neg (by simp [hx])]
  dsimp only
  rw [if_neg (by decide : ¬((false : Bool) = true))]
  simp [dictGet, dictSet]

/-- The first recorded failure for an integration with no stored breaker
entry: the default dict is inserted and mutated to one failure, state still
`closed`. -/
lemma update_cb_failure_start (cfgs : List (String × ApiConfig))
    (rls : List (String × List ℚ)) (x : String)
    (hx : pyFalsyName (some x) = false) (t : ℚ) :
    APIExecutorAgent.update_circuit_breaker ⟨cfgs, rls, []⟩ (some x) false t =
      ⟨cfgs, rls, [(x, ⟨1, some t, CircuitState.closed⟩)]⟩ := by
  unfold APIExecutorAgent.update_circuit_breaker
  rw [if_neg (by simp [hx])]
  dsimp only
  rw [if_neg (by decide : ¬((false : Bool) = true))]
  simp [dictGet, dictSet]

/-- A nonempty api name is not Python-falsy. -/
lemma pyFalsyName_of_ne (x : String) (hx : x ≠ "") :
    pyFalsyName (some x) = false := by
  unfold pyFalsyName
  dsimp only
  cases h : x.isEmpty
  · rfl
  · exact (hx ((String.isEmpty_iff x).mp h)).elim

/-- Claim C3: from a fresh (closed) breaker for integration `x`, four
recorded failures leave the breaker closed; the fifth opens it and stamps
`last_failure`; while open and within 30 s of `last_failure` a check denies
the call and `_execute_api_call` short-circuits without issuing the backing
request; once more than 30 s have elapsed the next check transitions the
stored entry to `half_open` and permits the call; a success recorded in
`half_open` resets `failures` to 0 and closes the circuit. -/
theorem C3_circuit_breaker_lifecycle (x : String) (t1 t2 t3 t4 t5 t6 t7 : ℚ)
    (http : HttpOutcome) (hx : x ≠ "") (h5 : t5 ≠ 0)
    (h6 : t6 - t5 ≤ 30) (h7 : 30 < t7 - t5) :
    dictGet (consecutiveFailures APIExecutorAgent.empty (some x)
        [t1, t2, t3, t4]).circuit_breakers x = some ⟨4, some t4, CircuitState.closed⟩ ∧
    consecutiveFailures APIExecutorAgent.empty (some x) [t1, t2, t3, t4, t5] =
      ⟨[], [], [(x, ⟨5, some t5, CircuitState.opened⟩)]⟩ ∧
    APIExecutorAgent.check_circuit_breaker
        ⟨[], [], [(x, ⟨5, some t5, CircuitState.opened⟩)]⟩ (some x) t6 =
      (false, ⟨[], [], [(x, ⟨5, some t5, CircuitState.opened⟩)]⟩) ∧
    ((⟨[], [], [(x, ⟨5, some t5, CircuitState.opened⟩)]⟩ : APIExecutorAgent).execute_api_call
        (some x) (some ("http://backing")) http t6).2.2 = false ∧
    ((⟨[], [], [(x, ⟨5, some t5, CircuitState.opened⟩)]⟩ : APIExecutorAgent).execute_api_call
        (some x) (some ("http://backing")) http t6).2.1.success = false ∧
    APIExecutorAgent.check_circuit_breaker
        ⟨[], [], [(x, ⟨5, some t5, CircuitState.opened⟩)]⟩ (some x) t7 =
      (true, ⟨[], [], [(x, ⟨5, some t5, CircuitState.half_open⟩)]⟩) ∧
    APIExecutorAgent.update_circuit_breaker
        ⟨[], [], [(x, ⟨5, some t5, CircuitState.half_open⟩)]⟩ (some x) true t7 =
      ⟨[], [], [(x, ⟨0, some t5, CircuitState.closed⟩)]⟩ := by
  have hxf : pyFalsyName (some x) = false := pyFalsyName_of_ne x hx
  have e1 := update_cb_failure_start [] [] x hxf t1
  have e2 := update_cb_failure_singleton [] [] x hxf ⟨1, some t1, CircuitState.closed⟩ t2
  have e3 := update_cb_failure_singleton [] [] x hxf ⟨2, some t2, CircuitState.closed⟩ t3
  have e4 := update_cb_failure_singleton [] [] x hxf ⟨3, some t3, CircuitState.closed⟩ t4
  have e5 := update_cb_failure_singleton [] [] x hxf ⟨4, some t4, CircuitState.closed⟩ t5
  norm_num at e2 e3 e4 e5
  have hchain4 : consecutiveFailures APIExecutorAgent.empty (some x) [t1, t2, t3, t4] =
      ⟨[], [], [(x, ⟨4, some t4, CircuitState.closed⟩)]⟩ := by
    unfold consecutiveFailures APIExecutorAgent.empty
    simp only [List.foldl]
    rw [e1, e2, e3, e4]
  have hchain5 : consecutiveFailures APIExecutorAgent.empty (some x) [t1, t2, t3, t4, t5] =
      ⟨[], [], [(x, ⟨5, some t5, CircuitState.opened⟩)]⟩ := by
    unfold consecutiveFailures APIExecutorAgent.empty
    simp only [List.foldl]
    rw [e1, e2, e3, e4, e5]
  have h6n : ¬(30 < t6 - t5) := not_lt.mpr h6
  have hdeny : APIExecutorAgent.check_circuit_breaker
      ⟨[], [], [(x, ⟨5, some t5, CircuitState.opened⟩)]⟩ (some x) t6 =
      (false, ⟨[], [], [(x, ⟨5, some t5, CircuitState.opened⟩)]⟩) := by
    simp [APIExecutorAgent.check_circuit_breaker, hxf, dictGet, pyTruthyTime,
          h5, h6n]
  have hpermit : APIExecutorAgent.check_circuit_breaker
      ⟨[], [], [(x, ⟨5, some t5, CircuitState.opened⟩)]⟩ (some x) t7 =
      (true, ⟨[], [], [(x, ⟨5, some t5, CircuitState.half_open⟩)]⟩) := by
    simp [APIExecutorAgent.check_circuit_breaker, hxf, dictGet, dictSet,
          pyTruthyTime, h5, h7]
  have hrate : APIExecutorAgent.check_rate_limit
      ⟨[], [], [(x, ⟨5, some t5, CircuitState.opened⟩)]⟩ (some x) t6 = true := by
    simp [APIExecutorAgent.check_rate_limit, hxf, dictGet]
  have hexec : ((⟨[], [], [(x, ⟨5, some t5, CircuitState.opened⟩)]⟩ : APIExecutorAgent).execute_api_call
      (some x) (some ("http://backing")) http t6) =
      (APIExecutorAgent.update_circuit_breaker
         ⟨[], [], [(x, ⟨5, some t5, CircuitState.opened⟩)]⟩ (some x) false t6,
       ⟨false, some ("Circuit breaker open for API: " ++ pyStrOptName (some x)), none⟩,
       false) := by
    unfold APIExecutorAgent.execute_api_call
    rw [if_neg (by decide : ¬(pyFalsyName (some ("http://backing")) = true))]
    rw [if_neg (by rw [hrate]; exact fun h => Bool.noConfusion h)]
    dsimp only
    rw [hdeny]
    dsimp only
    rw [if_pos rfl]
  have hclose : APIExecutorAgent.update_circuit_breaker
      ⟨[], [], [(x, ⟨5, some t5, CircuitState.half_open⟩)]⟩ (some x) true t7 =
      ⟨[], [], [(x, ⟨0, some t5, CircuitState.closed⟩)]⟩ := by
    simp [APIExecutorAgent.update_circuit_breaker, hxf, dictGet, dictSet]
  refine ⟨?_, hchain5, hdeny, ?_, ?_, hpermit, hclose⟩
  · rw [hchain4]
    simp [dictGet]
  · rw [hexec]
  · rw [hexec]

/-- Witness for `C3_circuit_breaker_lifecycle` at concrete times. -/
theorem C3_circuit_breaker_lifecycle_witness :
    consecutiveFailures APIExecutorAgent.empty (some ("api")) [1, 2, 3, 4, 5] =
      ⟨[], [], [("api", ⟨5, some 5, CircuitState.opened⟩)]⟩ ∧
    APIExecutorAgent.check_circuit_breaker
        ⟨[], [], [("api", ⟨5, some 5, CircuitState.opened⟩)]⟩ (some ("api")) 20 =
      (false, ⟨[], [], [("api", ⟨5, some 5, CircuitState.opened⟩)]⟩) ∧
    APIExecutorAgent.check_circuit_breaker
        ⟨[], [], [("api", ⟨5, some 5, CircuitState.opened⟩)]⟩ (some ("api")) 40 =
      (true, ⟨[], [], [("api", ⟨5, some 5, CircuitState.half_open⟩)]⟩) ∧
    APIExecutorAgent.update_circuit_breaker
        ⟨[], [], [("api", ⟨5, some 5, CircuitState.half_open⟩)]⟩ (some ("api")) true 40 =
      ⟨[], [], [("api", ⟨0, some 5, CircuitState.closed⟩)]⟩ := by
  have h := C3_circuit_breaker_lifecycle ("api") 1 2 3 4 5 20 40 (.ok 200)
    (by decide) (by norm_num) (by norm_num) (by norm_num)
  exact ⟨h.2.1, h.2.2.1, h.2.2.2.2.2.1, h.2.2.2.2.2.2⟩

/-- Whenever the backing request raises (or never starts), `_execute_api_call`
leaves the rate-limit dict untouched — `_update_rate_limit` runs only after a
completed HTTP request. -/
lemma execute_api_call_rate_limits_of_raises (s : APIExecutorAgent)
    (api url : Option String) (msg : String) (now : ℚ) :
    (s.execute_api_call api url (.raises msg) now).1.rate_limits = s.rate_limits := by
  unfold APIExecutorAgent.execute_api_call
  dsimp only
  repeat' split
  all_goals rw [update_circuit_breaker_rate_limits]
  all_goals rw [check_circuit_breaker_rate_limits]

/-- Claim C4, as stated, is false at a concrete input: with an empty state
the rate limiter permits the call and the backing request is issued, but the
request raises, and the permitted attempt records no timestamp — the
rate-limit dict stays empty, while the claim requires every permitted call
attempt to append its timestamp. -/
theorem C4_counterexample :
    APIExecutorAgent.check_rate_limit APIExecutorAgent.empty (some ("x")) 10 = true ∧
    (APIExecutorAgent.empty.execute_api_call (some ("x")) (some ("u"))
        (.raises ("timeout")) 10).2.2 = true ∧
    (APIExecutorAgent.empty.execute_api_call (some ("x")) (some ("u"))
        (.raises ("timeout")) 10).1.rate_limits = [] := by
  refine ⟨by decide, ?_, ?_⟩
  · unfold APIExecutorAgent.execute_api_call
    rw [if_neg (by decide : ¬(pyFalsyName (some ("u")) = true))]
    rw [if_neg (by decide :
      ¬(APIExecutorAgent.check_rate_limit APIExecutorAgent.empty (some ("x")) 10 = false))]
    dsimp only
    rw [if_neg (by decide :
      ¬((APIExecutorAgent.check_circuit_breaker APIExecutorAgent.empty (some ("x")) 10).1 = false))]
  · exact execute_api_call_rate_limits_of_raises APIExecutorAgent.empty
      (some ("x")) (some ("u")) ("timeout") 10

/-- Claim C4, amended: (i) with limit 3 and window 60 s, four check/record
rounds within one second on the same integration go permit–permit–permit–deny,
the three permitted completed calls appending their timestamps, and a check
after the window has slid past is permitted again; (ii) a denied rate-limit
check leaves the rate-limit dict unchanged and the backing call is not
issued; (iii) recording appends `now` and prunes: the stored list becomes
exactly the old-plus-`now` timestamps newer than `now - 60`; (iv) however, a
permitted attempt whose backing request raises records nothing — the
timestamp is appended only after a completed HTTP request. -/
theorem C4_rate_limiter :
    (APIExecutorAgent.check_rate_limit ⟨[("x", ⟨some 3⟩)], [], []⟩ (some ("x")) 0 = true ∧
     APIExecutorAgent.update_rate_limit ⟨[("x", ⟨some 3⟩)], [], []⟩ (some ("x")) 0 =
       ⟨[("x", ⟨some 3⟩)], [("x", [0])], []⟩ ∧
     APIExecutorAgent.check_rate_limit ⟨[("x", ⟨some 3⟩)], [("x", [0])], []⟩
       (some ("x")) (1/4) = true ∧
     APIExecutorAgent.update_rate_limit ⟨[("x", ⟨some 3⟩)], [("x", [0])], []⟩
       (some ("x")) (1/4) = ⟨[("x", ⟨some 3⟩)], [("x", [0, 1/4])], []⟩ ∧
     APIExecutorAgent.check_rate_limit ⟨[("x", ⟨some 3⟩)], [("x", [0, 1/4])], []⟩
       (some ("x")) (1/2) = true ∧
     APIExecutorAgent.update_rate_limit ⟨[("x", ⟨some 3⟩)], [("x", [0, 1/4])], []⟩
       (some ("x")) (1/2) = ⟨[("x", ⟨some 3⟩)], [("x", [0, 1/4, 1/2])], []⟩ ∧
     APIExecutorAgent.check_rate_limit ⟨[("x", ⟨some 3⟩)], [("x", [0, 1/4, 1/2])], []⟩
       (some ("x")) (3/4) = false ∧
     APIExecutorAgent.check_rate_limit ⟨[("x", ⟨some 3⟩)], [("x", [0, 1/4, 1/2])], []⟩
       (some ("x")) 61 = true) ∧
    (∀ (s : APIExecutorAgent) (api url : Option String) (http : HttpOutcome) (now : ℚ),
       s.check_rate_limit api now = false →
       (s.execute_api_call api url http now).1.rate_limits = s.rate_limits ∧
       (s.execute_api_call api url http now).2.2 = false) ∧
    (∀ (s : APIExecutorAgent) (api : Option String) (now : ℚ),
       pyFalsyName api = false →
       dictGet (s.update_rate_limit api now).rate_limits (api.getD "") =
         some ((((dictGet s.rate_limits (api.getD "")).getD []) ++ [now]).filter
                 (fun call_time => decide (now - 60 < call_time))) ∧
       now ∈ (((dictGet s.rate_limits (api.getD "")).getD []) ++ [now]).filter
                 (fun call_time => decide (now - 60 < call_time)) ∧
       ∀ t ∈ (((dictGet s.rate_limits (api.getD "")).getD []) ++ [now]).filter
                 (fun call_time => decide (now - 60 < call_time)), now - 60 < t) ∧
    (∀ (s : APIExecutorAgent) (api url : Option String) (msg : String) (now : ℚ),
       (s.execute_api_call api url (.raises msg) now).1.rate_limits = s.rate_limits) := by
  have hxf : pyFalsyName (some ("x")) = false := by decide
  refine ⟨⟨?_, ?_, ?_, ?_, ?_, ?_, ?_, ?_⟩, ?_, ?_, ?_⟩
  · decide
  · norm_num [APIExecutorAgent.update_rate_limit, hxf, dictGet, dictSet,
              List.filter_cons, List.filter_nil]
  · norm_num [APIExecutorAgent.check_rate_limit, hxf, dictGet,
              List.filter_cons, List.filter_nil]
  · norm_num [APIExecutorAgent.update_rate_limit, hxf, dictGet, dictSet,
              List.filter_cons, List.filter_nil]
  · norm_num [APIExecutorAgent.check_rate_limit, hxf, dictGet,
              List.filter_cons, List.filter_nil]
  · norm_num [APIExecutorAgent.update_rate_limit, hxf, dictGet, dictSet,
              List.filter_cons, List.filter_nil]
  · norm_num [APIExecutorAgent.check_rate_limit, hxf, dictGet,
              List.filter_cons, List.filter_nil]
  · norm_num [APIExecutorAgent.check_rate_limit, hxf, dictGet,
              List.filter_cons, List.filter_nil]
  · intro s api url http now hc
    unfold APIExecutorAgent.execute_api_call
    by_cases hurl : pyFalsyName url = true
    · rw [if_pos hurl]
      exact ⟨update_circuit_breaker_rate_limits s api false now, rfl⟩
    · rw [if_neg hurl, if_pos hc]
      exact ⟨update_circuit_breaker_rate_limits s api false now, rfl⟩
  · intro s api now hf
    unfold APIExecutorAgent.update_rate_limit
    rw [if_neg (by simp [hf])]
    dsimp only
    refine ⟨dictGet_dictSet_self _ _ _, ?_, ?_⟩
    · rw [List.mem_filter]
      refine ⟨List.mem_append_right _ (List.mem_singleton.mpr rfl), ?_⟩
      simp only [decide_eq_true_eq]
      linarith
    · intro t ht
      rw [List.mem_filter] at ht
      exact of_decide_eq_true ht.2
  · intro s api url msg now
    exact execute_api_call_rate_limits_of_raises s api url msg now

/-- Sequential step execution yields exactly one result per plan step. -/
lemma stepResults_length (env : Nat → McpCallOutcome) (i : Nat)
    (steps : List ToolCall) : (stepResults env i steps).length = steps.length := by
  induction steps generalizing i with
  | nil => rfl
  | cons s rest ih => simp [stepResults, ih]

/-- The `j`-th step result is the processed outcome of the `j`-th step. -/
lemma stepResults_get? (env : Nat → McpCallOutcome) (i j : Nat)
    (steps : List ToolCall) :
    (stepResults env i steps).get? j =
      (steps.get? j).map (fun step => processStep step (env (i + j))) := by
  induction steps generalizing i j with
  | nil => simp [stepResults]
  | cons s rest ih =>
      cases j with
      | zero => simp [stepResults]
      | succ j2 =>
          simp only [stepResults, List.get?_cons_succ, ih]
          rw [show i + 1 + j2 = i + (j2 + 1) from by omega]

/-- Claim C6: for every successfully parsed plan, one orchestration run
returns an `A2AResponse` with exactly one `ToolCallResult` per plan step in
plan order; every failing step outcome (transport error, JSON-RPC error, or
`isError` result) becomes a `success = false` entry carrying an error
message while execution continues; and when the summary-round output fails
to parse, the fixed non-empty fallback summary and empty
recommendation/risk lists are substituted. -/
theorem C6_orchestration (query : String) (plan : Plan)
    (env : Nat → McpCallOutcome) (summaryParse : Option SummaryData) :
    ∃ a2a : A2AResponse,
      handle_user_query query (some plan) env summaryParse = Except.ok a2a ∧
      a2a.query = query ∧
      a2a.overall_goal = plan.overall_goal ∧
      a2a.tool_results.length = plan.tool_calls.length ∧
      (∀ i : Nat, a2a.tool_results.get? i =
         (plan.tool_calls.get? i).map (fun step => processStep step (env i))) ∧
      (∀ (step : ToolCall) (o : McpCallOutcome), o.isFailure = true →
         (processStep step o).success = false ∧ (processStep step o).error ≠ none) ∧
      (∀ (step : ToolCall) (o : McpCallOutcome),
         (processStep step o).call_id = step.id ∧
         (processStep step o).tool_name = step.tool_name) ∧
      (summaryParse = none →
         a2a.summary = fallbackSummaryText ∧ a2a.summary ≠ "" ∧
         a2a.recommendations = [] ∧ a2a.risks = []) := by
  refine ⟨_, rfl, rfl, rfl, stepResults_length env 0 plan.tool_calls, ?_, ?_, ?_, ?_⟩
  · intro i
    have h := stepResults_get? env 0 i plan.tool_calls
    rw [Nat.zero_add] at h
    exact h
  · intro step o ho
    cases o with
    | httpExc msg => exact ⟨rfl, by simp [processStep]⟩
    | rpcError code msg => exact ⟨rfl, by simp [processStep]⟩
    | callResult execError resJson =>
        cases execError with
        | none => exact absurd ho (by simp [McpCallOutcome.isFailure])
        | some m =>
            refine ⟨rfl, ?_⟩
            simp [processStep]
  · intro step o
    cases o <;> exact ⟨rfl, rfl⟩
  · intro hsp
    subst hsp
    refine ⟨rfl, ?_, rfl, rfl⟩
    show fallbackSummaryText ≠ ""
    decide

/-- Witness for `C6_orchestration` at the two-step end-to-end example: step
`A` succeeds, step `B` fails at the transport level, and the summary round
fails to parse. -/
theorem C6_orchestration_witness :
    ∃ a2a : A2AResponse,
      handle_user_query ("q") (some planAB) envAB none = Except.ok a2a ∧
      a2a.tool_results.length = 2 ∧
      a2a.tool_results.get? 0 =
        some (processStep ⟨"step1", "A", none, []⟩ (envAB 0)) ∧
      a2a.tool_results.get? 1 =
        some (processStep ⟨"step2", "B", none, []⟩ (envAB 1)) ∧
      (processStep ⟨"step2", "B", none, []⟩ (envAB 1)).success = false ∧
      (processStep ⟨"step2", "B", none, []⟩ (envAB 1)).error ≠ none ∧
      a2a.summary = fallbackSummaryText ∧
      a2a.recommendations = [] := by
  obtain ⟨a2a, h1, hq, hg, hlen, hget, hfail, hids, hsum⟩ :=
    C6_orchestration ("q") planAB envAB none
  refine ⟨a2a, h1, ?_, ?_, ?_, ?_, ?_, ?_, ?_⟩
  · rw [hlen]; rfl
  · rw [hget 0]; rfl
  · rw [hget 1]; rfl
  · exact (hfail ⟨"step2", "B", none, []⟩ (envAB 1) (by decide)).1
  · exact (hfail ⟨"step2", "B", none, []⟩ (envAB 1) (by decide)).2
  · exact (hsum rfl).1
  · exact (hsum rfl).2.2.1

/-- Claim C7, as stated, is false at a concrete input: a task whose status is
the terminal `"completed"` is moved to `"processing"` by a subsequent
`update_task_status` call — the source overwrites `task.status`
unconditionally, with no terminal-state guard. -/
theorem C7_counterexample :
    completedTask.status = "completed" ∧
    ∃ task2 : BusinessTask,
      dictGet (TaskOrchestrator.update_task_status ⟨[("task-c", completedTask)], ⟨[]⟩⟩
          ("task-c") ("processing") none none 99).tasks ("task-c") = some task2 ∧
      task2.status = "processing" ∧ task2.status ≠ "completed" := by
  exact ⟨rfl, ⟨_, rfl, rfl, by decide⟩⟩

/-- Claim C7, amended: `update_task_status` overwrites the status of an
existing task unconditionally — terminal states are not enforced as final —
and it stamps `completed_at` (and `error_message` on failure) on both the
`"completed"` and the `"failed"` transition; a missing task id leaves the
state unchanged. -/
theorem C7_amended (st : TaskOrchestrator) (task_id status : String)
    (result : Option JValue) (error : Option String) (now : ℚ) :
    (∀ task : BusinessTask, dictGet st.tasks task_id = some task →
       ∃ task2 : BusinessTask,
         dictGet (st.update_task_status task_id status result error now).tasks task_id =
           some task2 ∧
         task2.status = status ∧
         (status = "completed" → task2.completed_at = some now) ∧
         (status = "failed" → task2.completed_at = some now ∧
            task2.error_message = error)) ∧
    (dictGet st.tasks task_id = none →
       st.update_task_status task_id status result error now = st) := by
  constructor
  · intro task h
    unfold TaskOrchestrator.update_task_status
    rw [h]
    dsimp only
    by_cases hc : status = "completed"
    · rw [if_pos hc]
      exact ⟨_, dictGet_dictSet_self _ _ _, rfl, fun _ => rfl,
             fun hf => absurd (hc ▸ hf) (by decide)⟩
    · rw [if_neg hc]
      by_cases hf : status = "failed"
      · rw [if_pos hf]
        exact ⟨_, dictGet_dictSet_self _ _ _, rfl, fun hc2 => absurd hc2 hc,
               fun _ => ⟨rfl, rfl⟩⟩
      · rw [if_neg hf]
        exact ⟨_, dictGet_dictSet_self _ _ _, rfl, fun hc2 => absurd hc2 hc,
               fun hf2 => absurd hf2 hf⟩
  · intro h
    unfold TaskOrchestrator.update_task_status
    rw [h]

/-- Witness for `C7_amended`: completing an existing pending task stamps
`completed_at`. -/
theorem C7_amended_witness :
    dictGet (⟨[("task-1", sampleTask)], ⟨[]⟩⟩ : TaskOrchestrator).tasks ("task-1") =
      some sampleTask ∧
    ∃ task2 : BusinessTask,
      dictGet (TaskOrchestrator.update_task_status ⟨[("task-1", sampleTask)], ⟨[]⟩⟩
          ("task-1") ("completed") none none 9).tasks ("task-1") = some task2 ∧
      task2.status = "completed" ∧ task2.completed_at = some 9 := by
  have h := (C7_amended ⟨[("task-1", sampleTask)], ⟨[]⟩⟩ ("task-1") ("completed")
    none none 9).1 sampleTask rfl
  obtain ⟨task2, h1, h2, h3, _⟩ := h
  exact ⟨rfl, ⟨task2, h1, h2, h3 rfl⟩⟩

/-- Claim C9: `assign_task` on a non-idle agent raises (an `AgentBusy`-style
exception) and leaves the agent record — in particular `current_task` and
`status` — completely unchanged; on an idle agent it binds the task, moves
the agent to `processing` and refreshes `last_activity`, raising nothing. -/
theorem C9_assign_task (a : BaseAgent) (task : BusinessTask) (now : ℚ) :
    (a.status ≠ AgentStatus.idle →
       (a.assign_task task now).2.isSome = true ∧
       (a.assign_task task now).1 = a) ∧
    (a.status = AgentStatus.idle →
       (a.assign_task task now).2 = none ∧
       (a.assign_task task now).1.current_task = some task ∧
       (a.assign_task task now).1.status = AgentStatus.processing ∧
       (a.assign_task task now).1.last_activity = now) := by
  constructor
  · intro h
    unfold BaseAgent.assign_task
    rw [if_pos h]
    exact ⟨rfl, rfl⟩
  · intro h
    unfold BaseAgent.assign_task
    rw [if_neg (by rw [h]; exact fun hne => hne rfl)]
    exact ⟨rfl, rfl, rfl, rfl⟩

/-- Witness for `C9_assign_task`: a processing agent rejects the assignment
unchanged; an idle agent accepts it. -/
theorem C9_assign_task_witness :
    busyAgent.status ≠ AgentStatus.idle ∧
    (busyAgent.assign_task sampleTask 5).2.isSome = true ∧
    (busyAgent.assign_task sampleTask 5).1 = busyAgent ∧
    financeAgent.status = AgentStatus.idle ∧
    (financeAgent.assign_task sampleTask 5).2 = none ∧
    (financeAgent.assign_task sampleTask 5).1.current_task = some sampleTask ∧
    (financeAgent.assign_task sampleTask 5).1.status = AgentStatus.processing := by
  have hb : busyAgent.status ≠ AgentStatus.idle := by decide
  have hi : financeAgent.status = AgentStatus.idle := rfl
  have h1 := (C9_assign_task busyAgent sampleTask 5).1 hb
  have h2 := (C9_assign_task financeAgent sampleTask 5).2 hi
  exact ⟨hb, h1.1, h1.2, hi, h2.1, h2.2.1, h2.2.2.1⟩

/-- Claim C10: `create_business_analysis` acquires the orchestrator's
non-reentrant lock and, still holding it, awaits `_create_analysis_subtasks`,
whose first `create_task` call acquires the same lock — the single-coroutine
lock trace deadlocks (`none`), so the composite operation never returns its
`BusinessAnalysisResponse`.  A `create_task` call on its own completes. -/
theorem C10_create_business_analysis_deadlock :
    runLockTrace create_business_analysis_lockTrace false = none ∧
    runLockTrace create_task_lockTrace false = some false := by
  decide

/-- When `find_capable_agents` returns a first candidate id, the registry
re-lookup by that id (`get_agent`) succeeds. -/
lemma find_capable_head_mem (r : AgentRegistry) (caps : List String)
    (aid : String) (rest : List String)
    (h : r.find_capable_agents caps = aid :: rest) :
    ∃ a : BaseAgent, r.agents.find? (fun a => a.id = aid) = some a := by
  unfold AgentRegistry.find_capable_agents at h
  have hmem := List.mem_cons_self aid rest
  rw [← h] at hmem
  obtain ⟨a, ha_filter, ha_id⟩ := List.mem_map.mp hmem
  have ha_mem : a ∈ r.agents := List.mem_of_mem_filter ha_filter
  have hsome : (r.agents.find? (fun a => a.id = aid)).isSome := by
    rw [List.find?_isSome]
    exact ⟨a, ha_mem, by simp [ha_id]⟩
  obtain ⟨b, hb⟩ := Option.isSome_iff_exists.mp hsome
  exact ⟨b, hb⟩

/-- Claim C8: a finance-domain `create_task` derives the required
capabilities `financial_analysis, data_processing` plus the general
`report_generation, data_visualization`; with no capable idle agent it
returns a stored `pending` task with no agent and does not fail; with a
first capable idle agent it returns `processing`, binds that agent (the
first in registry iteration order) and stamps `started_at`; and as soon as
an idle agent holding all four capabilities is registered, the capable set
is non-empty. -/
theorem C8_create_task (st : TaskOrchestrator) (request : TaskRequest)
    (newId : String) (now : ℚ) (hdom : request.domain = "finance") :
    TaskOrchestrator.get_required_capabilities ("finance") =
      ["financial_analysis", "data_processing",
       "report_generation", "data_visualization"] ∧
    (st.agent_registry.find_capable_agents
        (TaskOrchestrator.get_required_capabilities ("finance")) = [] →
       (st.create_task request newId now).2.status = "pending" ∧
       (st.create_task request newId now).2.agent_id = none ∧
       ∃ task : BusinessTask,
         dictGet (st.create_task request newId now).1.tasks newId = some task ∧
         task.status = "pending" ∧ task.agent_id = none) ∧
    (∀ (agent_id : String) (rest : List String),
       st.agent_registry.find_capable_agents
           (TaskOrchestrator.get_required_capabilities ("finance")) = agent_id :: rest →
       (st.create_task request newId now).2.status = "processing" ∧
       (st.create_task request newId now).2.agent_id = some agent_id ∧
       ∃ task : BusinessTask,
         dictGet (st.create_task request newId now).1.tasks newId = some task ∧
         task.status = "processing" ∧ task.agent_id = some agent_id ∧
         task.started_at = some now) ∧
    (∀ a ∈ st.agent_registry.agents, a.status = AgentStatus.idle →
       (∀ cap ∈ TaskOrchestrator.get_required_capabilities ("finance"),
          cap ∈ a.capabilities) →
       st.agent_registry.find_capable_agents
         (TaskOrchestrator.get_required_capabilities ("finance")) ≠ []) := by
  refine ⟨by decide, ?_, ?_, ?_⟩
  · intro hemp
    unfold TaskOrchestrator.create_task
    dsimp only
    rw [hdom, hemp]
    exact ⟨rfl, rfl, ⟨_, dictGet_dictSet_self _ _ _, rfl, rfl⟩⟩
  · intro agent_id rest hcap
    obtain ⟨a, hfind⟩ := find_capable_head_mem st.agent_registry
      (TaskOrchestrator.get_required_capabilities ("finance")) agent_id rest hcap
    unfold TaskOrchestrator.create_task
    dsimp only
    rw [hdom, hcap]
    dsimp only
    rw [hfind]
    exact ⟨rfl, rfl, ⟨_, dictGet_dictSet_self _ _ _, rfl, rfl, rfl⟩⟩
  · intro a ha hidle hcaps
    unfold AgentRegistry.find_capable_agents
    have hmem_f : a ∈ st.agent_registry.agents.filter
        (fun a => decide (a.status = AgentStatus.idle ∧
          ∀ cap ∈ TaskOrchestrator.get_required_capabilities ("finance"),
            cap ∈ a.capabilities)) :=
      List.mem_filter.mpr ⟨ha, decide_eq_true ⟨hidle, hcaps⟩⟩
    exact List.ne_nil_of_mem (List.mem_map_of_mem BaseAgent.id hmem_f)

/-- Witness for `C8_create_task`: an empty registry yields a pending task;
a registry holding one idle agent with the four finance capabilities yields
a processing task bound to it. -/
theorem C8_create_task_witness :
    ((⟨[], ⟨[]⟩⟩ : TaskOrchestrator).create_task financeRequest ("task-9") 5).2.status =
      "pending" ∧
    ((⟨[], ⟨[]⟩⟩ : TaskOrchestrator).create_task financeRequest ("task-9") 5).2.agent_id =
      none ∧
    ((⟨[], ⟨[financeAgent]⟩⟩ : TaskOrchestrator).create_task financeRequest
        ("task-9") 5).2.status = "processing" ∧
    ((⟨[], ⟨[financeAgent]⟩⟩ : TaskOrchestrator).create_task financeRequest
        ("task-9") 5).2.agent_id = some ("agent-1") ∧
    ∃ task : BusinessTask,
      dictGet ((⟨[], ⟨[financeAgent]⟩⟩ : TaskOrchestrator).create_task financeRequest
          ("task-9") 5).1.tasks ("task-9") = some task ∧
      task.status = "processing" ∧ task.agent_id = some ("agent-1") := by
  have hdom : financeRequest.domain = "finance" := rfl
  have hemp : (⟨[], ⟨[]⟩⟩ : TaskOrchestrator).agent_registry.find_capable_agents
      (TaskOrchestrator.get_required_capabilities ("finance")) = [] := by decide
  have hcap : (⟨[], ⟨[financeAgent]⟩⟩ : TaskOrchestrator).agent_registry.find_capable_agents
      (TaskOrchestrator.get_required_capabilities ("finance")) = ["agent-1"] := by decide
  have h1 := (C8_create_task ⟨[], ⟨[]⟩⟩ financeRequest ("task-9") 5 hdom).2.1 hemp
  have h2 := (C8_create_task ⟨[], ⟨[financeAgent]⟩⟩ financeRequest ("task-9") 5 hdom).2.2.1
    ("agent-1") [] hcap
  obtain ⟨task, ht1, ht2, ht3, _⟩ := h2.2.2
  exact ⟨h1.1, h1.2.1, h2.1, h2.2.1, ⟨task, ht1, ht2, ht3⟩⟩

/-- Witness for `C4_rate_limiter`: at the fourth call of the scenario the
check denies, and the denied call leaves the rate-limit dict unchanged
without issuing the backing request. -/
theorem C4_rate_limiter_witness :
    APIExecutorAgent.check_rate_limit ⟨[("x", ⟨some 3⟩)], [("x", [0, 1/4, 1/2])], []⟩
      (some ("x")) (3/4) = false ∧
    ((⟨[("x", ⟨some 3⟩)], [("x", [0, 1/4, 1/2])], []⟩ : APIExecutorAgent).execute_api_call
        (some ("x")) (some ("u")) (.ok 200) (3/4)).1.rate_limits =
      [("x", [0, 1/4, 1/2])] ∧
    ((⟨[("x", ⟨some 3⟩)], [("x", [0, 1/4, 1/2])], []⟩ : APIExecutorAgent).execute_api_call
        (some ("x")) (some ("u")) (.ok 200) (3/4)).2.2 = false := by
  have hc := C4_rate_limiter.1.2.2.2.2.2.2.1
  have h := C4_rate_limiter.2.1 ⟨[("x", ⟨some 3⟩)], [("x", [0, 1/4, 1/2])], []⟩
    (some ("x")) (some ("u")) (.ok 200) (3/4) hc
  exact ⟨hc, h.1, h.2⟩
